import Mathlib

/-!
Shallow embedding of the Dataset component of the wanderling-service
repository (src/src/lib.rs): the `Country` record, the `Predicate` filter
variants, the `Dataset` with its ordered sequence and keyed index, the
`get_by_id` lookup, the `get_items_with_predicate` filter + pagination
operation, the `From<Vec<Country>> for Dataset` construction, and the
predicate-resolution logic of `api_handler_countries_list`.

Machine integers: `page` and `limit` are Rust `u32`; `page * limit` is a
u32 multiplication (wrapping in release builds), modelled as
`(page * limit) % 2 ^ 32`.  `all_items.iter().count() as u32` truncates a
usize count to u32, modelled as `% 2 ^ 32`.  The `f32` coordinate fields
are display-only payload that no operation in the repository reads; they
are carried as an opaque `Int` bit payload.
-/

def UINT32_MOD : Nat := 2 ^ 32

/-- Rust `struct Country` (src/src/lib.rs lines 16-28). -/
structure Country where
  id : Nat
  country : String
  capital : String
  country_code : String
  capital_latitude : Int
  capital_longitude : Int
  country_audio_filename : String
  capital_audio_filename : Option String
deriving Repr, DecidableEq

/-- Rust `enum Predicate` (src/src/lib.rs lines 30-35). -/
inductive Predicate where
  | CountryCode (code : String)
  | Name (name : String)
  | Tag (tag : String)
deriving Repr, DecidableEq

/-- Rust `struct Pagination` (src/src/lib.rs lines 37-42). -/
structure Pagination where
  page : Nat
  items_per_page : Nat
  total_items : Nat
deriving Repr, DecidableEq

/-- Rust `struct CountryListResponse` (src/src/lib.rs lines 44-48). -/
structure CountryListResponse where
  data : List Country
  pagination : Pagination
deriving Repr, DecidableEq

/-- Rust `struct Dataset` (src/src/lib.rs lines 50-54).  The
`HashMap<u8, Country>` index is embedded as a function from keys to
optional values. -/
structure Dataset where
  by_id : Nat → Option Country
  all_items : List Country

/-- Embedded `HashMap::insert`: the new binding shadows any earlier
binding of the same key. -/
def hashMapInsert (m : Nat → Option Country) (k : Nat) (v : Country) :
    Nat → Option Country :=
  fun k2 => if k2 = k then some v else m k2

/-- Rust `str::to_lowercase` restricted to the ASCII range (the repository
compares 2-letter codes and country names; `Char.toLower` lowercases
exactly the ASCII uppercase letters). -/
def to_lowercase (s : String) : String := String.mk (s.data.map Char.toLower)

/-- Rust `str::starts_with`: the second string is a prefix of the first,
expressed on the character sequences. -/
def starts_with (s pre : String) : Bool := pre.data.isPrefixOf s.data

/-- The filter closure of `get_items_with_predicate`
(src/src/lib.rs lines 74-84): dispatch on the predicate variant,
lowercase both operands, exact match for `CountryCode`, prefix match
for `Name` and `Tag`. -/
def predicateMatches (p : Predicate) (x : Country) : Bool :=
  match p with
  | Predicate.CountryCode code =>
      to_lowercase x.country_code == to_lowercase code
  | Predicate.Name name =>
      starts_with (to_lowercase x.country) (to_lowercase name)
  | Predicate.Tag tag =>
      starts_with (to_lowercase x.country) (to_lowercase tag)

/-- Rust `Dataset::get_by_id` (src/src/lib.rs lines 57-62). -/
def Dataset.get_by_id (d : Dataset) (id : Nat) : Option Country :=
  match d.by_id id with
  | none => none
  | some x => some x

/-- Rust `Dataset::get_items_with_predicate` (src/src/lib.rs lines
64-116).  With a predicate: filter the ordered sequence, then skip
`page * limit` (u32 arithmetic) elements and take `limit` elements;
`total_items` is `all_items.iter().count() as u32` in both branches. -/
def Dataset.get_items_with_predicate (d : Dataset)
    (predicate : Option Predicate) (page limit : Nat) :
    CountryListResponse :=
  match predicate with
  | some p =>
      { data := ((d.all_items.filter (fun x => predicateMatches p x)).drop
            ((page * limit) % UINT32_MOD)).take limit
        pagination :=
          { page := page
            items_per_page := limit
            total_items := d.all_items.length % UINT32_MOD } }
  | none =>
      { data := (d.all_items.drop ((page * limit) % UINT32_MOD)).take limit
        pagination :=
          { page := page
            items_per_page := limit
            total_items := d.all_items.length % UINT32_MOD } }

/-- Rust `impl From<Vec<Country>> for Dataset` (src/src/lib.rs lines
119-130): insert every record into the index keyed by its id (later
inserts overwrite earlier ones), keep the whole vector as the ordered
sequence. -/
def Dataset.fromList (value : List Country) : Dataset :=
  { by_id := value.foldl (fun m x => hashMapInsert m x.id x) (fun _ => none)
    all_items := value }

/-- The predicate-resolution logic of `api_handler_countries_list`
(src/src/lib.rs lines 197-205): country-code first, then name, then
tag, else no predicate. -/
def resolvePredicate (filter_country_code filter_name filter_tag :
    Option String) : Option Predicate :=
  match filter_country_code with
  | some p => some (Predicate.CountryCode p)
  | none =>
    match filter_name with
    | some p => some (Predicate.Name p)
    | none =>
      match filter_tag with
      | some p => some (Predicate.Tag p)
      | none => none

/-- The candidate sequence of `get_items_with_predicate` before
pagination: the ordered sequence, filtered when a predicate is
present. -/
def Dataset.candidates (d : Dataset) (predicate : Option Predicate) :
    List Country :=
  match predicate with
  | some p => d.all_items.filter (fun x => predicateMatches p x)
  | none => d.all_items

/-- Fixture record with country code "AO", matching the repository's own
test fixture for the country-code filter. -/
def angola : Country :=
  { id := 1, country := "Angola", capital := "Luanda", country_code := "AO",
    capital_latitude := 0, capital_longitude := 0,
    country_audio_filename := "angola.mp3", capital_audio_filename := none }

/-- Fixture record with country code "BR". -/
def brazil : Country :=
  { id := 2, country := "Brazil", capital := "Brasilia", country_code := "BR",
    capital_latitude := 0, capital_longitude := 0,
    country_audio_filename := "brazil.mp3", capital_audio_filename := none }

/-- Fixture record with country code "AD". -/
def andorra : Country :=
  { id := 3, country := "Andorra", capital := "Andorra la Vella", country_code := "AD",
    capital_latitude := 0, capital_longitude := 0,
    country_audio_filename := "andorra.mp3", capital_audio_filename := none }

/-- Applying the index built by folding `hashMapInsert` over a record list
to a key returns the last record of the list bearing that key, falling
back to the initial map when no record bears it. -/
lemma foldl_insert_apply (l : List Country) (m : Nat → Option Country) (id : Nat) :
    (l.foldl (fun m x => hashMapInsert m x.id x) m) id =
      ((l.filter (fun x => x.id == id)).getLast?).elim (m id) some := by
  induction l generalizing m with
  | nil => simp
  | cons a l ih =>
    rw [List.foldl_cons, ih, List.filter_cons]
    by_cases h : a.id = id
    · simp only [h, beq_self_eq_true, if_pos, List.getLast?_cons]
      cases hl : (l.filter (fun x => x.id == id)).getLast? with
      | none => simp [hl, hashMapInsert, h]
      | some v => simp [hl]
    · have hb : (a.id == id) = false := by simp [h]
      simp only [hb, Bool.false_eq_true, if_neg]
      have hmi : hashMapInsert m a.id a id = m id := by
        unfold hashMapInsert
        exact if_neg (fun hh => h hh.symm)
      rw [hmi]
      simp

/-- The keyed index of `Dataset.fromList` maps a key to the last record
of the input list bearing that key. -/
lemma by_id_fromList (l : List Country) (id : Nat) :
    (Dataset.fromList l).by_id id = (l.filter (fun x => x.id == id)).getLast? := by
  have hproj : (Dataset.fromList l).by_id =
      l.foldl (fun m x => hashMapInsert m x.id x) (fun _ => none) := rfl
  rw [hproj, foldl_insert_apply]
  cases (l.filter (fun x => x.id == id)).getLast? <;> rfl

/-- Concatenating the first K chunks of size P (chunk p is drop (p * P)
then take P) of a list yields its first K * P elements. -/
lemma flatten_range_take_drop {α : Type} (P : Nat) :
    ∀ (K : Nat) (l : List α),
      ((List.range K).map (fun p => (l.drop (p * P)).take P)).flatten = l.take (K * P) := by
  intro K
  induction K with
  | zero => intro l; simp
  | succ K ih =>
    intro l
    rw [List.range_succ, List.map_append, List.flatten_append, ih]
    simp only [List.map_cons, List.map_nil, List.flatten_cons, List.flatten_nil,
      List.append_nil]
    rw [Nat.succ_mul, List.take_add]

/-- Claim C1, as stated, is false on the code: on a two-record dataset the
`CountryCode "AO"` predicate matches exactly one record, yet
`get_items_with_predicate` reports `total_items = 2` (the unfiltered
collection size), not 1. -/
theorem C1_counterexample :
    ((Dataset.fromList [angola, brazil]).all_items.filter
        (fun x => predicateMatches (Predicate.CountryCode "AO") x)).length = 1 ∧
    ((Dataset.fromList [angola, brazil]).get_items_with_predicate
        (some (Predicate.CountryCode "AO")) 0 10).pagination.total_items = 2 := by
  constructor <;> decide

/-- Claim C1 (amended): for every dataset, every optional predicate, and
every page and page size, the `total_items` field returned by
`get_items_with_predicate` equals the size of the whole collection
(truncated to u32), never the filtered count. -/
theorem C1_total_items_is_unfiltered_count (d : Dataset) (p : Option Predicate)
    (page limit : Nat) :
    (d.get_items_with_predicate p page limit).pagination.total_items =
      d.all_items.length % UINT32_MOD := by
  cases p <;> rfl

/-- Claim C2: `get_items_with_predicate` first filters the ordered
sequence by the predicate (the candidate sequence) and only then
paginates, dropping the u32 product `page * limit` elements of the
filtered sequence and taking up to `limit`; in particular the returned
page is a sublist of the filtered sequence (matching records in their
original relative order), never the result of paginating before
filtering. -/
theorem C2_filter_then_paginate (d : Dataset) (p : Option Predicate) (page limit : Nat) :
    (d.get_items_with_predicate p page limit).data =
      ((d.candidates p).drop ((page * limit) % UINT32_MOD)).take limit ∧
    (d.get_items_with_predicate p page limit).data.Sublist (d.candidates p) := by
  cases p <;> exact ⟨rfl, (List.take_sublist _ _).trans (List.drop_sublist _ _)⟩

/-- Claim C3: predicate evaluation lowercases both operands;
`CountryCode` matches exactly when the lowercased `country_code` field
equals the lowercased filter string, and `Name` and `Tag` match exactly
when the lowercased filter string is a character prefix of the lowercased
`country` field. -/
theorem C3_case_insensitive_matching (x : Country) (s : String) :
    (predicateMatches (Predicate.CountryCode s) x = true ↔
      to_lowercase x.country_code = to_lowercase s) ∧
    (predicateMatches (Predicate.Name s) x = true ↔
      (to_lowercase s).data <+: (to_lowercase x.country).data) ∧
    (predicateMatches (Predicate.Tag s) x = true ↔
      (to_lowercase s).data <+: (to_lowercase x.country).data) :=
  ⟨beq_iff_eq, List.isPrefixOf_iff_prefix, List.isPrefixOf_iff_prefix⟩

/-- Claim C4: predicate resolution follows strict precedence — a supplied
country-code input always wins, then name, then tag, and no predicate is
produced only when all three inputs are absent; lower-precedence inputs
are ignored, not rejected. -/
theorem C4_precedence (c n t : String) (nm tg : Option String) :
    resolvePredicate (some c) nm tg = some (Predicate.CountryCode c) ∧
    resolvePredicate none (some n) tg = some (Predicate.Name n) ∧
    resolvePredicate none none (some t) = some (Predicate.Tag t) ∧
    resolvePredicate none none none = (none : Option Predicate) :=
  ⟨rfl, rfl, rfl, rfl⟩

/-- Claim C5, as stated, is false on the code: page 2^30 at page size 4 is
far beyond the range of a two-record dataset, yet the u32 product
2^30 * 4 wraps to 0, so the full first page is returned instead of an
empty one. -/
theorem C5_counterexample :
    (Dataset.fromList [angola, brazil]).all_items.length ≤ 2 ^ 30 * 4 ∧
    ((Dataset.fromList [angola, brazil]).get_items_with_predicate none (2 ^ 30) 4).data
      = [angola, brazil] := by
  constructor <;> decide

/-- Claim C5 (amended): provided `page * limit` does not overflow u32,
a page at or beyond the end of the (possibly filtered) candidate
sequence yields an empty record list. -/
theorem C5_beyond_range_empty (d : Dataset) (p : Option Predicate) (page limit : Nat)
    (hof : page * limit < UINT32_MOD)
    (hrange : (d.candidates p).length ≤ page * limit) :
    (d.get_items_with_predicate p page limit).data = [] := by
  have hmod : (page * limit) % UINT32_MOD = page * limit := Nat.mod_eq_of_lt hof
  cases p with
  | none =>
    have hr : d.all_items.length ≤ page * limit := hrange
    show (d.all_items.drop ((page * limit) % UINT32_MOD)).take limit = []
    rw [hmod, List.drop_eq_nil_of_le hr, List.take_nil]
  | some pp =>
    have hr : (d.all_items.filter (fun x => predicateMatches pp x)).length ≤ page * limit :=
      hrange
    show ((d.all_items.filter (fun x => predicateMatches pp x)).drop
        ((page * limit) % UINT32_MOD)).take limit = []
    rw [hmod, List.drop_eq_nil_of_le hr, List.take_nil]

/-- Witness for the amended claim C5 at a concrete input: page 5 of size 1
on a two-record dataset is beyond range without overflow, and the
returned record list is empty. -/
theorem C5_beyond_range_empty_witness :
    5 * 1 < UINT32_MOD ∧
    ((Dataset.fromList [angola, brazil]).candidates none).length ≤ 5 * 1 ∧
    ((Dataset.fromList [angola, brazil]).get_items_with_predicate none 5 1).data = [] :=
  ⟨by decide, by decide,
    C5_beyond_range_empty (Dataset.fromList [angola, brazil]) none 5 1
      (by decide) (by decide)⟩

/-- Claim C6, as stated, is false on the code: with page size 0 and a
predicate whose candidate set has exactly one record, the data list is
empty as claimed, but `total_items` is 2 (the unfiltered collection
size), not the filtered candidate count 1. -/
theorem C6_counterexample :
    ((Dataset.fromList [angola, brazil]).candidates
        (some (Predicate.CountryCode "AO"))).length = 1 ∧
    ((Dataset.fromList [angola, brazil]).get_items_with_predicate
        (some (Predicate.CountryCode "AO")) 0 0).data = [] ∧
    ((Dataset.fromList [angola, brazil]).get_items_with_predicate
        (some (Predicate.CountryCode "AO")) 0 0).pagination.total_items = 2 := by
  refine ⟨?_, ?_, ?_⟩ <;> decide

/-- Claim C6 (amended): page size 0 always yields an empty record list,
with `total_items` equal to the unfiltered collection size (truncated to
u32) — which is the filtered candidate count only when no predicate is
present. -/
theorem C6_pageSize_zero (d : Dataset) (p : Option Predicate) (page : Nat) :
    (d.get_items_with_predicate p page 0).data = [] ∧
    (d.get_items_with_predicate p page 0).pagination.total_items =
      d.all_items.length % UINT32_MOD := by
  cases p with
  | none =>
    exact ⟨List.take_zero (d.all_items.drop ((page * 0) % UINT32_MOD)), rfl⟩
  | some pp =>
    exact ⟨List.take_zero ((d.all_items.filter
      (fun x => predicateMatches pp x)).drop ((page * 0) % UINT32_MOD)), rfl⟩

/-- Claim C7: constructing a Dataset from a record list keeps every
record, duplicates included, in the ordered sequence in source order,
while the keyed index maps each id to the last record of the list bearing
that id (later duplicates overwrite earlier ones in the index only). -/
theorem C7_fromList_views (l : List Country) (id : Nat) :
    (Dataset.fromList l).all_items = l ∧
    (Dataset.fromList l).by_id id = (l.filter (fun x => x.id == id)).getLast? :=
  ⟨rfl, by_id_fromList l id⟩

/-- Claim C8: pagination is stable — for page size P > 0, concatenating
the record lists of all unfiltered pages reproduces the full ordered
sequence exactly once (stated for collections whose length fits in u32,
so that no skip computation wraps). -/
theorem C8_pagination_stable (d : Dataset) (P : Nat) (hP : 0 < P)
    (hlen : d.all_items.length < UINT32_MOD) :
    ((List.range (d.all_items.length / P + 1)).map
        (fun p => (d.get_items_with_predicate none p P).data)).flatten = d.all_items := by
  have hmap : (List.range (d.all_items.length / P + 1)).map
        (fun p => (d.get_items_with_predicate none p P).data) =
      (List.range (d.all_items.length / P + 1)).map
        (fun p => (d.all_items.drop (p * P)).take P) := by
    apply List.map_congr_left
    intro p hp
    have hple : p ≤ d.all_items.length / P := by
      have := List.mem_range.mp hp
      omega
    have hlt : p * P < UINT32_MOD :=
      calc p * P ≤ d.all_items.length / P * P := Nat.mul_le_mul_right P hple
        _ ≤ d.all_items.length := Nat.div_mul_le_self _ _
        _ < UINT32_MOD := hlen
    show (d.all_items.drop ((p * P) % UINT32_MOD)).take P = _
    rw [Nat.mod_eq_of_lt hlt]
  rw [hmap, flatten_range_take_drop]
  apply List.take_of_length_le
  have hdm := Nat.div_add_mod d.all_items.length P
  have hmd : d.all_items.length % P < P := Nat.mod_lt _ hP
  rw [Nat.succ_mul]
  calc d.all_items.length
      = P * (d.all_items.length / P) + d.all_items.length % P := hdm.symm
    _ ≤ P * (d.all_items.length / P) + P := by omega
    _ = d.all_items.length / P * P + P := by rw [Nat.mul_comm]

/-- Witness for claim C8 at a concrete input: the two pages of size 2 of
a three-record dataset concatenate to the full ordered sequence. -/
theorem C8_pagination_stable_witness :
    (0 < 2) ∧
    (Dataset.fromList [angola, brazil, andorra]).all_items.length < UINT32_MOD ∧
    ((List.range ((Dataset.fromList [angola, brazil, andorra]).all_items.length / 2 + 1)).map
        (fun p => ((Dataset.fromList [angola, brazil, andorra]).get_items_with_predicate
          none p 2).data)).flatten = (Dataset.fromList [angola, brazil, andorra]).all_items :=
  ⟨by decide, by decide,
    C8_pagination_stable (Dataset.fromList [angola, brazil, andorra]) 2
      (by decide) (by decide)⟩

/-- Claim C9: a `Tag` predicate produces exactly the same response as a
`Name` predicate with the same filter string, for every dataset, page,
and page size — the two variants are semantically identical. -/
theorem C9_tag_equals_name (d : Dataset) (s : String) (page limit : Nat) :
    d.get_items_with_predicate (some (Predicate.Tag s)) page limit =
      d.get_items_with_predicate (some (Predicate.Name s)) page limit := rfl

/-- Claim C10: `get_by_id` on a constructed dataset returns a record
whose id equals the queried id (and which belongs to the input list) when
some record with that id is present, and returns none exactly when no
record with that id is present; it is a pure total function. -/
theorem C10_get_by_id_characterization (l : List Country) (id : Nat) :
    match (Dataset.fromList l).get_by_id id with
    | some r => r.id = id ∧ r ∈ l
    | none => ∀ r ∈ l, r.id ≠ id := by
  have hget : (Dataset.fromList l).get_by_id id = (Dataset.fromList l).by_id id := by
    unfold Dataset.get_by_id
    cases (Dataset.fromList l).by_id id <;> rfl
  rw [hget, by_id_fromList]
  cases hl : (l.filter (fun x => x.id == id)).getLast? with
  | some r =>
    have hmem : r ∈ l.filter (fun x => x.id == id) :=
      List.mem_of_mem_getLast? (by simp [Option.mem_def, hl])
    have hfm := List.mem_filter.mp hmem
    exact ⟨by simpa using hfm.2, hfm.1⟩
  | none =>
    intro r hr hid
    have hfe : l.filter (fun x => x.id == id) = [] := List.getLast?_eq_none_iff.mp hl
    have hrf : r ∈ l.filter (fun x => x.id == id) :=
      List.mem_filter.mpr ⟨hr, by simp [hid]⟩
    rw [hfe] at hrf
    exact (List.not_mem_nil r) hrf

/-- Witness for claim C10 at a concrete input: looking up id 1 in the
two-record fixture dataset. -/
theorem C10_get_by_id_witness :
    (match (Dataset.fromList [angola, brazil]).get_by_id 1 with
      | some r => r.id = 1 ∧ r ∈ [angola, brazil]
      | none => ∀ r ∈ [angola, brazil], r.id ≠ 1) :=
  C10_get_by_id_characterization [angola, brazil] 1
